import Mathlib

/-!
Shallow embedding of the message-model and error-class layer of the
repository: `Msg` construction helpers, type-guard predicates, `narrow`
and `narrowResponseMessage` (from the message module), and the error
class declarations (from `src/errors.ts`).

Fallible TypeScript functions (ones that may `throw`) are embedded as
`Except String α`, the error value being the name of the thrown error's
class (`"Error"` for the built-in `Error`).
-/

namespace Agentic

/-- Possible roles for a message (`Msg.Role`). -/
inductive Role where
  | system
  | user
  | assistant
  | function
  | tool
deriving DecidableEq

/-- The literal type tag of a tool call; the source allows only the
string literal value standing for a function. -/
inductive CallToolType where
  | function
deriving DecidableEq

namespace Msg

namespace Call

/-- `Msg.Call.Function`: the name and arguments of a function that
should be called, as generated by the model. -/
structure Function where
  arguments : String
  name : String
deriving DecidableEq

/-- `Msg.Call.Tool`: one tool call generated by the model. -/
structure Tool where
  id : String
  type : CallToolType
  function : Call.Function
deriving DecidableEq

end Call

end Msg

/-- Generic/default OpenAI message without any narrowing applied.
`content` may be null (`none`); the remaining fields are optional in the
source and are embedded as `Option`s. -/
structure Msg where
  content : Option String
  role : Role
  function_call : Option Msg.Call.Function := none
  tool_calls : Option (List Msg.Call.Tool) := none
  tool_call_id : Option String := none
  name : Option String := none
deriving DecidableEq

/-- JavaScript string truthiness for an optional string field:
absent (`undefined`) and the empty string are falsy. -/
def truthy : Option String → Bool
  | none => false
  | some s => s != ""

/-- The spread `...(name ? \x7b name \x7d : \x7b\x7d)` used by the text
constructors: the `name` key is included only when truthy. -/
def keepTruthy : Option String → Option String
  | none => none
  | some s => if s == "" then none else some s

/-- A line (as characters) consisting only of whitespace. -/
def isBlankLine (l : List Char) : Bool :=
  l.all (fun c => c.isWhitespace)

/-- Split a character sequence into its lines at newline characters. -/
def splitLines : List Char → List (List Char)
  | [] => [[]]
  | c :: cs =>
    let r := splitLines cs
    if c = '\n' then [] :: r
    else
      match r with
      | l :: ls => (c :: l) :: ls
      | [] => [[c]]

/-- Indentation (count of leading space characters) of one line. -/
def lineIndent (l : List Char) : Nat :=
  (l.takeWhile (fun c => c = ' ')).length

/-- Common indentation of the non-blank lines. -/
def commonIndent (ls : List (List Char)) : Nat :=
  match (ls.filter (fun l => !isBlankLine l)).map lineIndent with
  | [] => 0
  | x :: xs => xs.foldl Nat.min x

/-- Collapse runs of consecutive blank lines to a single blank line. -/
def collapseBlankLines : List (List Char) → List (List Char)
  | [] => []
  | l :: rest =>
    let r := collapseBlankLines rest
    if isBlankLine l then
      match r with
      | r0 :: _ => if isBlankLine r0 then r else l :: r
      | [] => l :: r
    else l :: r

/-- Rejoin lines with newline characters. -/
def joinLines : List (List Char) → List Char
  | [] => []
  | [l] => l
  | l :: ls => l ++ '\n' :: joinLines ls

/-- Drop surrounding whitespace from a character sequence. -/
def trimChars (cs : List Char) : List Char :=
  ((cs.dropWhile Char.isWhitespace).reverse.dropWhile Char.isWhitespace).reverse

/-- Modelled from the spec: `cleanStringForModel` lives in
`src/utils.ts`, which is not among the sources here.  Per the spec the
construction helpers "normalize free-text content (trim, collapse
run-on blank lines, de-indent) by default"; this definition de-indents
every line by the common indentation, collapses runs of blank lines,
and trims surrounding whitespace. -/
def cleanStringForModel (s : String) : String :=
  let ls := splitLines s.toList
  let k := commonIndent ls
  let ls := ls.map (fun l => l.drop k)
  let ls := collapseBlankLines ls
  String.mk (trimChars (joinLines ls))

/-- A JSON-serializable value (the `Jsonifiable` payload type of the
result constructors). -/
inductive Jsonifiable where
  | null
  | bool (b : Bool)
  | num (n : Int)
  | str (s : String)
  | arr (xs : List Jsonifiable)
  | obj (fields : List (String × Jsonifiable))

/-- Wrap a string in JSON quotes, escaping quotes and backslashes. -/
def quoteJson (s : String) : String :=
  "\"" ++ String.join (s.toList.map (fun c =>
    if c = '"' then "\\\"" else if c = '\\' then "\\\\" else String.singleton c)) ++ "\""

mutual

/-- Modelled from the spec: `stringifyForModel` lives in `src/utils.ts`,
which is not among the sources here.  It serializes a `Jsonifiable`
result payload to a JSON string; the claims below depend only on the
result being a (non-null) string. -/
def stringifyForModel : Jsonifiable → String
  | .null => "null"
  | .bool true => "true"
  | .bool false => "false"
  | .num n => toString n
  | .str s => quoteJson s
  | .arr xs => "[" ++ stringifyList xs ++ "]"
  | .obj kvs => "\x7b" ++ stringifyObj kvs ++ "\x7d"

/-- Comma-separated serialization of a JSON array body. -/
def stringifyList : List Jsonifiable → String
  | [] => ""
  | [x] => stringifyForModel x
  | x :: xs => stringifyForModel x ++ "," ++ stringifyList xs

/-- Comma-separated serialization of a JSON object body. -/
def stringifyObj : List (String × Jsonifiable) → String
  | [] => ""
  | [(k, v)] => quoteJson k ++ ":" ++ stringifyForModel v
  | (k, v) :: xs => quoteJson k ++ ":" ++ stringifyForModel v ++ "," ++ stringifyObj xs

end

/-- Options record of the free-text constructors `Msg.system`,
`Msg.user`, `Msg.assistant`; `cleanContent` defaults to `true`. -/
structure MsgTextOpts where
  name : Option String := none
  cleanContent : Bool := true
deriving DecidableEq

/-- Options record of `Msg.funcCall`, `Msg.toolCall`, `Msg.toolResult`;
these constructors spread the record into the result, so `name` is kept
as given (no truthiness filtering). -/
structure MsgCallOpts where
  name : Option String := none
deriving DecidableEq

namespace Msg

/-- Create a system message. Cleans indentation and newlines by default. -/
def system (content : String) (opts : MsgTextOpts) : Msg :=
  { role := Role.system
    content := some (if opts.cleanContent then cleanStringForModel content else content)
    name := keepTruthy opts.name }

/-- Create a user message. Cleans indentation and newlines by default. -/
def user (content : String) (opts : MsgTextOpts) : Msg :=
  { role := Role.user
    content := some (if opts.cleanContent then cleanStringForModel content else content)
    name := keepTruthy opts.name }

/-- Create an assistant message. Cleans indentation and newlines by default. -/
def assistant (content : String) (opts : MsgTextOpts) : Msg :=
  { role := Role.assistant
    content := some (if opts.cleanContent then cleanStringForModel content else content)
    name := keepTruthy opts.name }

/-- Create a function call message with arguments (`...opts` spread). -/
def funcCall (function_call : Msg.Call.Function) (opts : MsgCallOpts) : Msg :=
  { role := Role.assistant
    content := none
    function_call := some function_call
    name := opts.name }

/-- Create a function result message. -/
def funcResult (content : Jsonifiable) (name : String) : Msg :=
  { role := Role.function
    content := some (stringifyForModel content)
    name := some name }

/-- Create a tool call message with arguments (`...opts` spread). -/
def toolCall (tool_calls : List Msg.Call.Tool) (opts : MsgCallOpts) : Msg :=
  { role := Role.assistant
    content := none
    tool_calls := some tool_calls
    name := opts.name }

/-- Create a tool call result message (`...opts` spread). -/
def toolResult (content : Jsonifiable) (tool_call_id : String) (opts : MsgCallOpts) : Msg :=
  { role := Role.tool
    tool_call_id := some tool_call_id
    content := some (stringifyForModel content)
    name := opts.name }

/-- Narrow a message received from the API.  The source checks, in this
order: null content with `tool_calls` present, null content with
`function_call` present, non-null content; otherwise it throws the
built-in `Error` (message 'Invalid message'). -/
def narrowResponseMessage (msg : Msg) : Except String Msg :=
  match msg.content, msg.tool_calls with
  | none, some tcs => Except.ok (Msg.toolCall tcs {})
  | none, none =>
    match msg.function_call with
    | some fc => Except.ok (Msg.funcCall fc {})
    | none => Except.error "Error"
  | some c, _ => Except.ok (Msg.assistant c {})

/-- Check if a message is a system message. -/
def isSystem (message : Msg) : Bool :=
  message.role == Role.system

/-- Check if a message is a user message. -/
def isUser (message : Msg) : Bool :=
  message.role == Role.user

/-- Check if a message is an assistant message (strict non-null content). -/
def isAssistant (message : Msg) : Bool :=
  message.role == Role.assistant && message.content.isSome

/-- Check if a message is a function call message with arguments. -/
def isFuncCall (message : Msg) : Bool :=
  message.role == Role.assistant && message.function_call.isSome

/-- Check if a message is a function result message (`name != null`). -/
def isFuncResult (message : Msg) : Bool :=
  message.role == Role.function && message.name.isSome

/-- Check if a message is a tool calls message. -/
def isToolCall (message : Msg) : Bool :=
  message.role == Role.assistant && message.tool_calls.isSome

/-- Check if a message is a tool call result message; the source tests
`!!message.tool_call_id`, i.e. truthiness, not mere presence. -/
def isToolResult (message : Msg) : Bool :=
  message.role == Role.tool && truthy message.tool_call_id

/-- Narrow a message to a specific variant: sequential predicate checks
returning the message unchanged, else throw the built-in `Error`. -/
def narrow (message : Msg) : Except String Msg :=
  if isSystem message then Except.ok message
  else if isUser message then Except.ok message
  else if isAssistant message then Except.ok message
  else if isFuncCall message then Except.ok message
  else if isFuncResult message then Except.ok message
  else if isToolCall message then Except.ok message
  else if isToolResult message then Except.ok message
  else Except.error "Error"

end Msg

/-- One `class C extends P` declaration of an error class. -/
structure ErrorClassDecl where
  name : String
  parent : String
deriving DecidableEq

/-- The error classes declared in `src/errors.ts`: `RetryableError`
extends the built-in `Error`, `ParseError` extends `RetryableError`,
and `TimeoutError` extends the built-in `Error`. -/
def declaredErrorClasses : List ErrorClassDecl :=
  [⟨"RetryableError", "Error"⟩, ⟨"ParseError", "RetryableError"⟩, ⟨"TimeoutError", "Error"⟩]

/-- Superclass of a declared error class, if declared here. -/
def parentOf (n : String) : Option String :=
  (declaredErrorClasses.find? (fun c => c.name == n)).map (fun c => c.parent)

/-- Fuel-bounded chain of superclasses of an error class. -/
def ancestorChain : Nat → String → List String
  | 0, _ => []
  | Nat.succ k, n =>
    match parentOf n with
    | some p => p :: ancestorChain k p
    | none => []

/-- `x instanceof C` on the error classes: the class itself or any
class on its superclass chain. -/
def instanceOf (n target : String) : Bool :=
  n == target || (ancestorChain (declaredErrorClasses.length + 1) n).contains target

/-- How many of the seven type-guard predicates hold of a message. -/
def predCount (m : Msg) : Nat :=
  [Msg.isSystem m, Msg.isUser m, Msg.isAssistant m, Msg.isFuncCall m,
   Msg.isFuncResult m, Msg.isToolCall m, Msg.isToolResult m].count true

/-- Well-formedness exactly as the claim words it: `content` is null iff
the message carries exactly one of `function_call` / `tool_calls`;
`name` present when the role is the function role; `tool_call_id`
present when the role is the tool role. -/
def wellFormedClaim (m : Msg) : Prop :=
  (m.content = none ↔
    ((m.function_call.isSome ∧ m.tool_calls = none) ∨
     (m.function_call = none ∧ m.tool_calls.isSome))) ∧
  (m.role = Role.function → m.name.isSome) ∧
  (m.role = Role.tool → m.tool_call_id.isSome)

/-- Strengthened well-formedness, as the code's predicates require it:
`content` is null iff some call field is present, at most one call
field is present, `name` present for the function role, and a truthy
(non-empty) `tool_call_id` for the tool role. -/
def wellFormed (m : Msg) : Prop :=
  (m.content = none ↔ (m.function_call.isSome ∨ m.tool_calls.isSome)) ∧
  ¬(m.function_call.isSome ∧ m.tool_calls.isSome) ∧
  (m.role = Role.function → m.name.isSome) ∧
  (m.role = Role.tool → truthy m.tool_call_id = true)

/-- The invariant of §3 of the spec: `content` is null iff the message
carries a call request, and at most one of the call fields is set. -/
def callInvariant (m : Msg) : Prop :=
  (m.content = none ↔ (m.function_call.isSome ∨ m.tool_calls.isSome)) ∧
  ¬(m.function_call.isSome ∧ m.tool_calls.isSome)

instance (m : Msg) : Decidable (wellFormedClaim m) := by
  unfold wellFormedClaim; infer_instance

instance (m : Msg) : Decidable (wellFormed m) := by
  unfold wellFormed; infer_instance

instance (m : Msg) : Decidable (callInvariant m) := by
  unfold callInvariant; infer_instance


/-- Any message that is well-formed in the strengthened sense satisfies
exactly one of the seven predicates, and `narrow` returns it unchanged. -/
theorem classify_of_wellFormed (m : Msg) (h : wellFormed m) :
    predCount m = 1 ∧ Msg.narrow m = Except.ok m := by
  obtain ⟨c, r, fc, tc, tcid, nm⟩ := m
  obtain ⟨h1, h2, h3, h4⟩ := h
  cases r <;>
    simp_all [predCount, Msg.narrow, Msg.isSystem, Msg.isUser, Msg.isAssistant,
      Msg.isFuncCall, Msg.isFuncResult, Msg.isToolCall, Msg.isToolResult, truthy]
  all_goals (cases c <;> cases fc <;> cases tc <;> simp_all)

/-- C1: `narrowResponseMessage` classifies in source order, first match
winning: null content with `tool_calls` present yields a ToolCall
variant; otherwise null content with `function_call` present yields a
FuncCall variant; otherwise non-null content yields an Assistant
variant. -/
theorem narrowResponseMessage_classification_order :
    (∀ (msg : Msg) (tcs : List Msg.Call.Tool),
      msg.content = none → msg.tool_calls = some tcs →
      ∃ m, Msg.narrowResponseMessage msg = Except.ok m ∧ Msg.isToolCall m = true) ∧
    (∀ (msg : Msg) (fc : Msg.Call.Function),
      msg.content = none → msg.tool_calls = none → msg.function_call = some fc →
      ∃ m, Msg.narrowResponseMessage msg = Except.ok m ∧ Msg.isFuncCall m = true) ∧
    (∀ (msg : Msg) (c : String),
      msg.content = some c →
      ∃ m, Msg.narrowResponseMessage msg = Except.ok m ∧ Msg.isAssistant m = true) := by
  refine ⟨?_, ?_, ?_⟩
  · intro msg tcs h1 h2
    refine ⟨Msg.toolCall tcs {}, ?_, rfl⟩
    unfold Msg.narrowResponseMessage
    rw [h1, h2]
  · intro msg fc h1 h2 h3
    refine ⟨Msg.funcCall fc {}, ?_, rfl⟩
    unfold Msg.narrowResponseMessage
    rw [h1, h2, h3]
  · intro msg c h1
    refine ⟨Msg.assistant c {}, ?_, rfl⟩
    unfold Msg.narrowResponseMessage
    rw [h1]

/-- C1 witness: the three branches at concrete response messages. -/
theorem narrowResponseMessage_classification_order_witness :
    (∃ m, Msg.narrowResponseMessage ⟨none, Role.assistant, none,
        some [⟨"id1", CallToolType.function, ⟨"1", "f"⟩⟩], none, none⟩ = Except.ok m ∧
      Msg.isToolCall m = true) ∧
    (∃ m, Msg.narrowResponseMessage ⟨none, Role.assistant, some ⟨"2", "g"⟩, none, none, none⟩ =
      Except.ok m ∧ Msg.isFuncCall m = true) ∧
    (∃ m, Msg.narrowResponseMessage ⟨some "hello", Role.assistant, none, none, none, none⟩ =
      Except.ok m ∧ Msg.isAssistant m = true) :=
  ⟨narrowResponseMessage_classification_order.1 _ _ rfl rfl,
   narrowResponseMessage_classification_order.2.1 _ _ rfl rfl rfl,
   narrowResponseMessage_classification_order.2.2 _ _ rfl⟩

/-- C2 counterexample: on null content with both call fields absent the
code throws the built-in `Error`, not a `ProtocolError`; indeed the
sources declare no error class named `ProtocolError` at all. -/
theorem narrowResponseMessage_error_not_protocolError :
    Msg.narrowResponseMessage ⟨none, Role.assistant, none, none, none, none⟩ =
      Except.error "Error" ∧
    ("Error" = "ProtocolError" → False) ∧
    declaredErrorClasses.all (fun c => c.name != "ProtocolError") = true :=
  ⟨rfl, by decide, by decide⟩

/-- C2 amended: for every raw message with null content and neither call
field present, `narrowResponseMessage` fails by throwing the built-in
`Error` (so it never coerces the message into an Assistant variant). -/
theorem narrowResponseMessage_null_no_calls_throws :
    ∀ (msg : Msg), msg.content = none → msg.function_call = none → msg.tool_calls = none →
      Msg.narrowResponseMessage msg = Except.error "Error" := by
  intro msg h1 h2 h3
  unfold Msg.narrowResponseMessage
  rw [h1, h3, h2]

/-- C2 witness: the amended failure at a concrete malformed message. -/
theorem narrowResponseMessage_null_no_calls_throws_witness :
    Msg.narrowResponseMessage ⟨none, Role.tool, none, none, none, none⟩ =
      Except.error "Error" :=
  narrowResponseMessage_null_no_calls_throws ⟨none, Role.tool, none, none, none, none⟩ rfl rfl rfl

/-- C3 counterexample: the message with the tool role, non-null content
and an empty-string `tool_call_id` is well-formed exactly as the claim
words it (the id is present), yet none of the seven predicates holds of
it, so they are not exhaustive on the claim's well-formed messages. -/
theorem predicates_not_exclusive_for_claim_wellFormed :
    wellFormedClaim ⟨some "ok", Role.tool, none, none, some "", none⟩ ∧
    predCount ⟨some "ok", Role.tool, none, none, some "", none⟩ = 0 :=
  ⟨by decide, rfl⟩

/-- C3 amended: for every message well-formed in the strengthened sense
(at most one call field, a call field present iff content is null,
`name` present for the function role, and a truthy non-empty
`tool_call_id` for the tool role), exactly one of the seven predicates
`isSystem`, `isUser`, `isAssistant`, `isFuncCall`, `isFuncResult`,
`isToolCall`, `isToolResult` returns true.  (Each predicate is a total
function into `Bool`, hence side-effect-free.) -/
theorem predicates_mutually_exclusive (m : Msg) (h : wellFormed m) :
    predCount m = 1 :=
  (classify_of_wellFormed m h).1

/-- C3 witness: exactly one predicate holds of a concrete user message. -/
theorem predicates_mutually_exclusive_witness :
    predCount ⟨some "hi", Role.user, none, none, none, none⟩ = 1 :=
  predicates_mutually_exclusive ⟨some "hi", Role.user, none, none, none, none⟩ (by decide)

/-- C4 counterexample: a message with non-null content and both call
fields set is well-formed exactly as the claim words it (content is
non-null and it does not carry exactly one call field), `narrow`
returns it, but it belongs to three variants at once (Assistant,
FuncCall and ToolCall), not exactly one. -/
theorem narrow_not_unique_for_claim_wellFormed :
    wellFormedClaim ⟨some "x", Role.assistant, some ⟨"1", "f"⟩, some [], none, none⟩ ∧
    Msg.narrow ⟨some "x", Role.assistant, some ⟨"1", "f"⟩, some [], none, none⟩ =
      Except.ok ⟨some "x", Role.assistant, some ⟨"1", "f"⟩, some [], none, none⟩ ∧
    predCount ⟨some "x", Role.assistant, some ⟨"1", "f"⟩, some [], none, none⟩ = 3 :=
  ⟨by decide, rfl, rfl⟩

/-- C4 amended: for every message well-formed in the strengthened sense,
`narrow` does not throw — it returns the message unchanged — and the
returned message belongs to exactly one of the seven variants. -/
theorem narrow_total_on_wellFormed (m : Msg) (h : wellFormed m) :
    Msg.narrow m = Except.ok m ∧ predCount m = 1 :=
  ⟨(classify_of_wellFormed m h).2, (classify_of_wellFormed m h).1⟩

/-- C4 witness: `narrow` at a concrete well-formed tool-result message. -/
theorem narrow_total_on_wellFormed_witness :
    Msg.narrow ⟨some "42", Role.tool, none, none, some "call_1", none⟩ =
      Except.ok ⟨some "42", Role.tool, none, none, some "call_1", none⟩ ∧
    predCount ⟨some "42", Role.tool, none, none, some "call_1", none⟩ = 1 :=
  narrow_total_on_wellFormed ⟨some "42", Role.tool, none, none, some "call_1", none⟩ (by decide)

/-- C5: every message built by the seven construction helpers satisfies
the invariant: `content` is null iff the message carries a call request,
and a call message has exactly one of `function_call` / `tool_calls`. -/
theorem constructors_satisfy_callInvariant :
    ∀ (c : String) (o : MsgTextOpts) (fc : Msg.Call.Function) (co : MsgCallOpts)
      (j : Jsonifiable) (n : String) (tcs : List Msg.Call.Tool) (i : String),
      callInvariant (Msg.system c o) ∧ callInvariant (Msg.user c o) ∧
      callInvariant (Msg.assistant c o) ∧ callInvariant (Msg.funcCall fc co) ∧
      callInvariant (Msg.funcResult j n) ∧ callInvariant (Msg.toolCall tcs co) ∧
      callInvariant (Msg.toolResult j i co) := by
  intro c o fc co j n tcs i
  refine ⟨?_, ?_, ?_, ?_, ?_, ?_, ?_⟩ <;>
    simp [callInvariant, Msg.system, Msg.user, Msg.assistant, Msg.funcCall,
      Msg.funcResult, Msg.toolCall, Msg.toolResult]

/-- C6: the free-text helpers apply `cleanStringForModel` to the content
when `cleanContent` is left at its default, and return the content
character-for-character when called with `cleanContent := false`. -/
theorem text_constructors_clean_by_default_exact_on_opt_out :
    ∀ (s : String) (nm : Option String),
      (Msg.system s { name := nm }).content = some (cleanStringForModel s) ∧
      (Msg.user s { name := nm }).content = some (cleanStringForModel s) ∧
      (Msg.assistant s { name := nm }).content = some (cleanStringForModel s) ∧
      (Msg.system s { name := nm, cleanContent := false }).content = some s ∧
      (Msg.user s { name := nm, cleanContent := false }).content = some s ∧
      (Msg.assistant s { name := nm, cleanContent := false }).content = some s :=
  fun _ _ => ⟨rfl, rfl, rfl, rfl, rfl, rfl⟩

/-- C7: in the declared error hierarchy, `ParseError` is a subclass of
`RetryableError` (every ParseError is a RetryableError), while
`TimeoutError` is not a `RetryableError` — it extends the built-in
`Error` separately, as both classes do. -/
theorem parseError_retryable_timeoutError_not :
    instanceOf "ParseError" "RetryableError" = true ∧
    instanceOf "TimeoutError" "RetryableError" = false ∧
    instanceOf "ParseError" "Error" = true ∧
    instanceOf "TimeoutError" "Error" = true := by
  decide

/-- C8: on non-null content, `narrowResponseMessage` returns the result
of `Msg.assistant` with default options, whose content is the cleaned
string, not the raw one; and cleaning is not the identity (so the
returned content may differ from the raw content). -/
theorem narrowResponseMessage_cleans_content :
    (∀ (msg : Msg) (c : String), msg.content = some c →
      Msg.narrowResponseMessage msg = Except.ok (Msg.assistant c {}) ∧
      (Msg.assistant c {}).content = some (cleanStringForModel c)) ∧
    cleanStringForModel " x " ≠ " x " := by
  constructor
  · intro msg c h
    constructor
    · unfold Msg.narrowResponseMessage
      rw [h]
    · rfl
  · decide

/-- C8 witness: a concrete response message whose surrounding whitespace
is stripped by the default cleaning. -/
theorem narrowResponseMessage_cleans_content_witness :
    Msg.narrowResponseMessage ⟨some " x ", Role.assistant, none, none, none, none⟩ =
      Except.ok (Msg.assistant " x " {}) ∧
    (Msg.assistant " x " {}).content = some (cleanStringForModel " x ") :=
  narrowResponseMessage_cleans_content.1 ⟨some " x ", Role.assistant, none, none, none, none⟩
    " x " rfl

/-- C9: on null content, `narrowResponseMessage` preserves the call
payload unchanged — the returned variant's `tool_calls` (respectively
`function_call`) is exactly the raw message's field — while the raw
message's `name` field is dropped (the constructors are called without
options, so the result's `name` is absent). -/
theorem narrowResponseMessage_preserves_calls_drops_name :
    (∀ (msg : Msg) (tcs : List Msg.Call.Tool),
      msg.content = none → msg.tool_calls = some tcs →
      Msg.narrowResponseMessage msg = Except.ok (Msg.toolCall tcs {}) ∧
      (Msg.toolCall tcs {}).tool_calls = some tcs ∧ (Msg.toolCall tcs {}).name = none) ∧
    (∀ (msg : Msg) (fc : Msg.Call.Function),
      msg.content = none → msg.tool_calls = none → msg.function_call = some fc →
      Msg.narrowResponseMessage msg = Except.ok (Msg.funcCall fc {}) ∧
      (Msg.funcCall fc {}).function_call = some fc ∧ (Msg.funcCall fc {}).name = none) := by
  constructor
  · intro msg tcs h1 h2
    refine ⟨?_, rfl, rfl⟩
    unfold Msg.narrowResponseMessage
    rw [h1, h2]
  · intro msg fc h1 h2 h3
    refine ⟨?_, rfl, rfl⟩
    unfold Msg.narrowResponseMessage
    rw [h1, h2, h3]

/-- C9 witness: a raw tool-call message and a raw function-call message,
each carrying a `name` that the narrowing drops while the call payload
comes through unchanged. -/
theorem narrowResponseMessage_preserves_calls_drops_name_witness :
    (Msg.narrowResponseMessage ⟨none, Role.assistant, none,
        some [⟨"id9", CallToolType.function, ⟨"3", "h"⟩⟩], none, some "bob"⟩ =
      Except.ok (Msg.toolCall [⟨"id9", CallToolType.function, ⟨"3", "h"⟩⟩] {}) ∧
      (Msg.toolCall [⟨"id9", CallToolType.function, ⟨"3", "h"⟩⟩] {}).tool_calls =
        some [⟨"id9", CallToolType.function, ⟨"3", "h"⟩⟩] ∧
      (Msg.toolCall [⟨"id9", CallToolType.function, ⟨"3", "h"⟩⟩] {}).name = none) ∧
    (Msg.narrowResponseMessage ⟨none, Role.assistant, some ⟨"4", "k"⟩, none, none, some "eve"⟩ =
      Except.ok (Msg.funcCall ⟨"4", "k"⟩ {}) ∧
      (Msg.funcCall ⟨"4", "k"⟩ {}).function_call = some ⟨"4", "k"⟩ ∧
      (Msg.funcCall ⟨"4", "k"⟩ {}).name = none) :=
  ⟨narrowResponseMessage_preserves_calls_drops_name.1 _ _ rfl rfl,
   narrowResponseMessage_preserves_calls_drops_name.2 _ _ rfl rfl rfl⟩

/-- C10: a tool-role message with non-null content and an empty-string
`tool_call_id` fails `isToolResult` (the code tests truthiness, not
presence) and makes `narrow` throw; likewise a function-role message
with non-null content but no `name` fails `isFuncResult` and makes
`narrow` throw. -/
theorem truthiness_gates_tool_and_function_results :
    (∀ (msg : Msg) (s : String),
      msg.role = Role.tool → msg.content = some s → msg.tool_call_id = some "" →
      Msg.isToolResult msg = false ∧ Msg.narrow msg = Except.error "Error") ∧
    (∀ (msg : Msg) (s : String),
      msg.role = Role.function → msg.content = some s → msg.name = none →
      Msg.isFuncResult msg = false ∧ Msg.narrow msg = Except.error "Error") := by
  constructor
  · intro msg s h1 h2 h3
    obtain ⟨c, r, fc, tc, tcid, nm⟩ := msg
    simp_all [Msg.narrow, Msg.isSystem, Msg.isUser, Msg.isAssistant, Msg.isFuncCall,
      Msg.isFuncResult, Msg.isToolCall, Msg.isToolResult, truthy]
  · intro msg s h1 h2 h3
    obtain ⟨c, r, fc, tc, tcid, nm⟩ := msg
    simp_all [Msg.narrow, Msg.isSystem, Msg.isUser, Msg.isAssistant, Msg.isFuncCall,
      Msg.isFuncResult, Msg.isToolCall, Msg.isToolResult, truthy]

/-- C10 witness: the two rejections at concrete messages. -/
theorem truthiness_gates_tool_and_function_results_witness :
    (Msg.isToolResult ⟨some "r", Role.tool, none, none, some "", none⟩ = false ∧
     Msg.narrow ⟨some "r", Role.tool, none, none, some "", none⟩ = Except.error "Error") ∧
    (Msg.isFuncResult ⟨some "r2", Role.function, none, none, none, none⟩ = false ∧
     Msg.narrow ⟨some "r2", Role.function, none, none, none, none⟩ = Except.error "Error") :=
  ⟨truthiness_gates_tool_and_function_results.1 _ "r" rfl rfl rfl,
   truthiness_gates_tool_and_function_results.2 _ "r2" rfl rfl rfl⟩

end Agentic
